import Mathlib

/-!
Verification of the picker value-management contract of
`packages/x-date-pickers/src/internals/hooks/usePicker/usePickerValue.types.ts`.

The repository file under verification is a pure interface/type declaration
file: it declares the `PickerValueManager` capability, the reconciliation
state `UsePickerValueState`, the action type `PickerValueUpdateAction` and
the public action surface (`clearValue`, `setValueToToday`,
`acceptValueChanges`, `cancelValueChanges`, `dismissViews`).  The reducer
implementing these contracts is not part of the excerpt, so the operational
definitions below are modelled from the specification's algorithm
(ActionReducer step list, controlled-value synchronization, and the
open-state controller's close-with-implicit-commit contract), faithful to
its words; every such definition carries a `Modelled from the spec:` note.

The value type is kept abstract (`TValue`), exactly as in the source, and
every equality used for change/commit detection goes through the injected
`areValuesEqual`, never structural identity.
-/

section PickerModel

variable {TValue : Type}

/-- The `selectionState` carried by `setValueFromView`
(`PickerSelectionState = 'partial' | 'shallow' | 'finish'` in the source;
the first constructor is named `partialSelection` here because `partial`
is a reserved word in Lean). -/
inductive PickerSelectionState where
  | partialSelection
  | shallow
  | finish
deriving DecidableEq

/-- The `pickerAction` carried by `setValueFromAction`
(`'accept' | 'today' | 'cancel' | 'dismiss' | 'clear'` in the source). -/
inductive PickerAction where
  | accept
  | today
  | cancel
  | dismiss
  | clear
deriving DecidableEq

/-- The `changeImportance` carried by `setValueFromShortcut`
(`PickerShortcutChangeImportance`): per the spec's policy table, `accept`
importance commits, otherwise the shortcut is publish-only. -/
inductive PickerShortcutChangeImportance where
  | accept
  | set
deriving DecidableEq

/-- The injected `PickerValueManager` capability, polymorphic over the value
shape exactly as in the source interface.  The date adapter (`utils`) and
timezone arguments are opaque pass-throughs in the source, so they are
absorbed into the functions here.  The error-handling members
(`isSameError`, `hasError`, `defaultErrorState`) and the timezone members
(`getTimezone`, `setTimezone`) are not consulted by the reducer and are
modelled separately where a claim needs them. -/
structure PickerValueManager (TValue : Type) where
  /-- Determines if two values are equal (`areValuesEqual`). -/
  areValuesEqual : TValue → TValue → Bool
  /-- Value to set when clicking the "Clear" button (`emptyValue`). -/
  emptyValue : TValue
  /-- Value to set when clicking the "Today" button (`getTodayValue`). -/
  getTodayValue : TValue
  /-- Method parsing the input value to replace all invalid dates by `null`
  (`cleanValue`). -/
  cleanValue : TValue → TValue
  /-- Optional hook generating the new value, given the last valid value and
  the new proposed value (`valueReducer`); per the spec it is applied to the
  candidate value before equality/publish computation. -/
  valueReducer : Option (TValue → TValue → TValue)

/-- The reconciliation state (`UsePickerValueState` in the source). -/
structure UsePickerValueState (TValue : Type) where
  /-- Date displayed on the views and the field (`draft`). -/
  draft : TValue
  /-- Last value published (`lastPublishedValue`). -/
  lastPublishedValue : TValue
  /-- Last value committed (`lastCommittedValue`). -/
  lastCommittedValue : TValue
  /-- Last value passed to `props.value` (`lastControlledValue`). -/
  lastControlledValue : Option TValue
  /-- `false` until the first user-originated edit
  (`hasBeenModifiedSinceMount`). -/
  hasBeenModifiedSinceMount : Bool

/-- The action type (`PickerValueUpdateAction` in the source).  The
`setValueFromField` validation context is abstracted to the one bit the
spec's policy table consults: whether the field signals a finished/valid
entry. -/
inductive PickerValueUpdateAction (TValue : Type) where
  | setValueFromView (value : TValue) (selectionState : PickerSelectionState)
  | setValueFromField (value : TValue) (fieldSignalsFinished : Bool)
  | setValueFromAction (value : TValue) (pickerAction : PickerAction)
  | setValueFromShortcut (value : TValue)
      (changeImportance : PickerShortcutChangeImportance)

/-- The candidate value carried by an action. -/
def PickerValueUpdateAction.value : PickerValueUpdateAction TValue → TValue
  | .setValueFromView v _ => v
  | .setValueFromField v _ => v
  | .setValueFromAction v _ => v
  | .setValueFromShortcut v _ => v

/-- The reducer's outcome: the next state together with the side-effect
directives of the spec's design note ("emit-change/emit-commit/request-close
returned as a data structure from a pure function").  The callback lists
record each `onChange` / `onAccept` emission with its value, so "fires
exactly once" is expressible. -/
structure PickerValueUpdaterResult (TValue : Type) where
  state : UsePickerValueState TValue
  onChangeCalls : List TValue
  onAcceptCalls : List TValue
  shouldClose : Bool

/-- Modelled from the spec: the `valueReducer` hook, if supplied by the
ValueManager, transforms the candidate value (given the last valid value)
before equality/publish computation. -/
def applyValueReducer (vm : PickerValueManager TValue)
    (dateState : UsePickerValueState TValue)
    (action : PickerValueUpdateAction TValue) : TValue :=
  match vm.valueReducer with
  | some f => f dateState.lastCommittedValue action.value
  | none => action.value

/-- Modelled from the spec: step 2's publish policy.  `setValueFromView`,
`setValueFromField` and `setValueFromShortcut` publish when `hasChanged`
(the default); `setValueFromAction` for `accept`/`today`/`clear` publishes
when `hasChanged`, and `cancel`/`dismiss` never publish. -/
def shouldPublishValue (action : PickerValueUpdateAction TValue)
    (hasChanged : Bool) : Bool :=
  match action with
  | .setValueFromView _ _ => hasChanged
  | .setValueFromField _ _ => hasChanged
  | .setValueFromAction _ pa =>
    match pa with
    | .accept | .today | .clear => hasChanged
    | .cancel | .dismiss => false
  | .setValueFromShortcut _ _ => hasChanged

/-- Modelled from the spec: step 2's commit policy.  `setValueFromView`
commits only when `selectionState = finish`; `setValueFromField` commits
only if the field signals a finished/valid entry (gating the `hasChanged`
default); `setValueFromAction` for `accept`/`today`/`clear` always commits
(even with no value change, to guarantee `onAccept` fires on button press)
while `cancel`/`dismiss` never commit; `setValueFromShortcut` commits
exactly when its `changeImportance` is `accept`. -/
def shouldCommitValue (action : PickerValueUpdateAction TValue)
    (hasChanged : Bool) : Bool :=
  match action with
  | .setValueFromView _ s =>
    match s with
    | .finish => true
    | .partialSelection | .shallow => false
  | .setValueFromField _ fieldSignalsFinished => fieldSignalsFinished && hasChanged
  | .setValueFromAction _ pa =>
    match pa with
    | .accept | .today | .clear => true
    | .cancel | .dismiss => false
  | .setValueFromShortcut _ imp =>
    match imp with
    | .accept => true
    | .set => false

/-- Modelled from the spec: step 3's close directive.  `shouldClose` is true
for every `setValueFromAction` (`accept`, `today`, `cancel`, `dismiss`,
`clear`), and, when `closeOnSelect` is true, for `setValueFromView` with
`selectionState = finish`; false otherwise. -/
def shouldClosePicker (action : PickerValueUpdateAction TValue)
    (closeOnSelect : Bool) : Bool :=
  match action with
  | .setValueFromAction _ _ => true
  | .setValueFromView _ s =>
    closeOnSelect &&
      (match s with
       | .finish => true
       | .partialSelection | .shallow => false)
  | _ => false

/-- Whether the action is a `cancel` or `dismiss` button action (the spec's
step 8 exception: these reset `draft` to `lastCommittedValue` instead of
adopting the candidate value). -/
def isCancelOrDismissAction : PickerValueUpdateAction TValue → Bool
  | .setValueFromAction _ .cancel => true
  | .setValueFromAction _ .dismiss => true
  | _ => false

/-- Whether the action is a `dismiss` button action (the spec's step 9: every
action sets `hasBeenModifiedSinceMount`, except a pure `dismiss` without
prior edits leaves it untouched). -/
def isDismissAction : PickerValueUpdateAction TValue → Bool
  | .setValueFromAction _ .dismiss => true
  | _ => false

/-- Modelled from the spec: the ActionReducer algorithm of §4.1, as a pure
function from (ValueManager, current state, context, action) to the next
state plus side-effect directives.
1. the candidate value is the action's value transformed by the optional
   `valueReducer`; `hasChanged` compares it to `draft` via `areValuesEqual`;
2. publish/commit follow the policy table (`shouldPublishValue` /
   `shouldCommitValue`), close follows `shouldClosePicker`;
3. the new draft adopts the candidate (even if invalid), except that
   `cancel`/`dismiss` reset it to `lastCommittedValue`;
4. publishing emits `onChange(candidate)` and records `lastPublishedValue`;
   committing emits `onAccept(candidate)` and records `lastCommittedValue`;
5. every action sets `hasBeenModifiedSinceMount`, except `dismiss` which
   leaves it as it was.
The spec's special case for uncontrolled + unmodified pickers (accept-like
actions still fire `onAccept`, cancel/dismiss fire nothing) is subsumed by
the policy table, so `isControlled` is carried in the context (as in the
source's `PickerValueUpdaterParams`) without further branching. -/
def actionReducer (vm : PickerValueManager TValue)
    (dateState : UsePickerValueState TValue)
    (isControlled closeOnSelect : Bool)
    (action : PickerValueUpdateAction TValue) : PickerValueUpdaterResult TValue :=
  let candidate := applyValueReducer vm dateState action
  let hasChanged := ! vm.areValuesEqual dateState.draft candidate
  let publish := shouldPublishValue action hasChanged
  let commit := shouldCommitValue action hasChanged
  { state :=
      { draft :=
          if isCancelOrDismissAction action then dateState.lastCommittedValue
          else candidate
        lastPublishedValue :=
          if publish then candidate else dateState.lastPublishedValue
        lastCommittedValue :=
          if commit then candidate else dateState.lastCommittedValue
        lastControlledValue := dateState.lastControlledValue
        hasBeenModifiedSinceMount :=
          if isDismissAction action then dateState.hasBeenModifiedSinceMount
          else true }
    onChangeCalls := if publish then [candidate] else []
    onAcceptCalls := if commit then [candidate] else []
    shouldClose := shouldClosePicker action closeOnSelect }

/-- Modelled from the spec: §4.2's test for an external update — whether the
external value differs (per `areValuesEqual`) from `lastControlledValue`
(a picker that was never controlled before counts as differing). -/
def controlledValueDiffers (vm : PickerValueManager TValue)
    (dateState : UsePickerValueState TValue) (v : TValue) : Bool :=
  match dateState.lastControlledValue with
  | none => true
  | some lcv => ! vm.areValuesEqual lcv v

/-- Modelled from the spec: §4.2's render-phase synchronization with the
controlled value.  `externalValue` is the `value` prop (`none` when the
picker is uncontrolled).  If the picker is controlled and the external value
differs (per `areValuesEqual`) from `lastControlledValue`, the store
externally resets `draft`, `lastPublishedValue` and `lastCommittedValue` to
the new external value and updates `lastControlledValue`, without treating
this as a user action: no callback emission, no modification-flag change,
no close request. -/
def syncControlledValue (vm : PickerValueManager TValue)
    (dateState : UsePickerValueState TValue)
    (externalValue : Option TValue) : PickerValueUpdaterResult TValue :=
  match externalValue with
  | none => ⟨dateState, [], [], false⟩
  | some v =>
    if controlledValueDiffers vm dateState v then
      ⟨{ draft := v
         lastPublishedValue := v
         lastCommittedValue := v
         lastControlledValue := some v
         hasBeenModifiedSinceMount := dateState.hasBeenModifiedSinceMount },
       [], [], false⟩
    else ⟨dateState, [], [], false⟩

/-- Modelled from the spec: §4.3's `requestClose` contract, implemented by
the private-context `dismissViews`.  If `draft` differs (per
`areValuesEqual`) from `lastCommittedValue`, the pending edits are committed
as an implicit accept-equivalent (fire `onAccept(draft)`, record
`lastCommittedValue = draft`) before the transition to closed; closing never
silently discards unseen edits, and an unchanged draft commits nothing. -/
def dismissViews (vm : PickerValueManager TValue)
    (dateState : UsePickerValueState TValue) : PickerValueUpdaterResult TValue :=
  if vm.areValuesEqual dateState.draft dateState.lastCommittedValue then
    ⟨dateState, [], [], true⟩
  else
    ⟨{ dateState with lastCommittedValue := dateState.draft },
     [], [dateState.draft], true⟩

/-- Modelled from the spec: the actions-context dispatcher `clearValue`
("Set the current value of the picker to be empty"), a thin dispatcher
composing `ValueManager.emptyValue` with a `clear` button action. -/
def clearValue (vm : PickerValueManager TValue)
    (dateState : UsePickerValueState TValue)
    (isControlled closeOnSelect : Bool) : PickerValueUpdaterResult TValue :=
  actionReducer vm dateState isControlled closeOnSelect
    (.setValueFromAction vm.emptyValue .clear)

/-- Modelled from the spec: the actions-context dispatcher `setValueToToday`
("Set the current value of the picker to be the current date"), composing
`ValueManager.getTodayValue` with a `today` button action. -/
def setValueToToday (vm : PickerValueManager TValue)
    (dateState : UsePickerValueState TValue)
    (isControlled closeOnSelect : Bool) : PickerValueUpdaterResult TValue :=
  actionReducer vm dateState isControlled closeOnSelect
    (.setValueFromAction vm.getTodayValue .today)

/-- Modelled from the spec: the actions-context dispatcher
`acceptValueChanges` ("Accept the current value of the picker"), composing
the current draft with an `accept` button action. -/
def acceptValueChanges (vm : PickerValueManager TValue)
    (dateState : UsePickerValueState TValue)
    (isControlled closeOnSelect : Bool) : PickerValueUpdaterResult TValue :=
  actionReducer vm dateState isControlled closeOnSelect
    (.setValueFromAction dateState.draft .accept)

/-- Modelled from the spec: the actions-context dispatcher
`cancelValueChanges` ("Cancel the changes made to the current value"),
composing the last accepted value with a `cancel` button action. -/
def cancelValueChanges (vm : PickerValueManager TValue)
    (dateState : UsePickerValueState TValue)
    (isControlled closeOnSelect : Bool) : PickerValueUpdaterResult TValue :=
  actionReducer vm dateState isControlled closeOnSelect
    (.setValueFromAction dateState.lastCommittedValue .cancel)

end PickerModel

section TimezoneAndReference

/-- An abstract date carrying the timezone of its instant: the one piece of
date structure the `getTimezone` contract observes.  The adapter's
arithmetic is opaque to the core, so the instant is an abstract integer. -/
structure ZonedDate where
  instant : Int
  timezone : String
deriving DecidableEq

/-- A single-picker value: one nullable date. -/
abbrev SingleValue := Option ZonedDate

/-- A range-picker value: a pair (start, end) of nullable dates. -/
abbrev RangeValue := Option ZonedDate × Option ZonedDate

/-- `true` exactly on `Except.error`. -/
def exceptIsError {ε α : Type} : Except ε α → Bool
  | .error _ => true
  | .ok _ => false

/-- Modelled from the spec: the single-picker ValueManager's `getTimezone`
("Return the timezone of the date inside a value"): `null` for an empty
value, otherwise the date's timezone; it never raises. -/
def singleGetTimezone (value : SingleValue) : Option String :=
  match value with
  | none => none
  | some d => some d.timezone

/-- Modelled from the spec: the range ValueManager's `getTimezone`.  It must
raise an error if the two elements of the range carry different timezones
(an unsupported, inconsistent input, surfaced synchronously); otherwise it
returns the common timezone, or `null` when both elements are empty. -/
def rangeGetTimezone (value : RangeValue) : Except String (Option String) :=
  match value with
  | (none, none) => .ok none
  | (some a, none) => .ok (some a.timezone)
  | (none, some b) => .ok (some b.timezone)
  | (some a, some b) =>
    if a.timezone = b.timezone then .ok (some a.timezone)
    else .error "MUI X: The timezone of the start and the end date should be the same."

/-- Modelled from the spec: the single-picker `getInitialReferenceValue`.
Its source declaration returns the non-nullable shape
(`InferNonNullablePickerValue<TValue>`): the reference value to use for
non-provided dates falls back from the user value to the user-provided
`referenceDate`, and finally to the today-based default reference date.
The result is kept in the nullable value shape so that non-emptiness is a
property of the fallback chain rather than of the declared type. -/
def singleGetInitialReferenceValue (referenceDate : Option ZonedDate)
    (value : SingleValue) (todayDate : ZonedDate) : SingleValue :=
  (value.or referenceDate).or (some todayDate)

/-- Modelled from the spec: the range `getInitialReferenceValue`, applying
the single-picker fallback chain to each end of the range. -/
def rangeGetInitialReferenceValue (referenceDate : Option ZonedDate)
    (value : RangeValue) (todayDate : ZonedDate) : RangeValue :=
  (singleGetInitialReferenceValue referenceDate value.1 todayDate,
   singleGetInitialReferenceValue referenceDate value.2 todayDate)

end TimezoneAndReference

section ConcreteInstances

/-- A concrete single-date ValueManager over `SingleValue`, used to evaluate
the generic theorems at concrete inputs: values compare by structural
equality of the nullable date, the empty value is `null`, and no
`valueReducer` hook is supplied. -/
def singleValueManager : PickerValueManager SingleValue :=
  { areValuesEqual := fun a b => a == b
    emptyValue := none
    getTodayValue := some ⟨20260101, "UTC"⟩
    cleanValue := id
    valueReducer := none }

/-- A concrete reconciliation state: committed and published at one date,
with an uncommitted draft edit pending. -/
def sampleState : UsePickerValueState SingleValue :=
  { draft := some ⟨7, "UTC"⟩
    lastPublishedValue := some ⟨7, "UTC"⟩
    lastCommittedValue := some ⟨3, "UTC"⟩
    lastControlledValue := none
    hasBeenModifiedSinceMount := false }

/-- A concrete state with no pending edit: draft, published and committed
all agree. -/
def settledState : UsePickerValueState SingleValue :=
  { draft := some ⟨3, "UTC"⟩
    lastPublishedValue := some ⟨3, "UTC"⟩
    lastCommittedValue := some ⟨3, "UTC"⟩
    lastControlledValue := some (some ⟨3, "UTC"⟩)
    hasBeenModifiedSinceMount := false }

end ConcreteInstances

/-- C1: for every picker state, dispatching `setValueFromAction` with
`pickerAction = accept` fires the `onAccept` callback exactly once with the
action's value and sets `lastCommittedValue` to the action's value, even
when the candidate value is equal (per `ValueManager.areValuesEqual`) to
`lastCommittedValue` (stated for a ValueManager without the optional
`valueReducer` hook, so that the committed value is the action's own). -/
theorem accept_always_fires_onAccept {TValue : Type}
    (vm : PickerValueManager TValue) (dateState : UsePickerValueState TValue)
    (isControlled closeOnSelect : Bool) (v : TValue)
    (hvr : vm.valueReducer = none) :
    (actionReducer vm dateState isControlled closeOnSelect
        (.setValueFromAction v .accept)).onAcceptCalls = [v] ∧
    (actionReducer vm dateState isControlled closeOnSelect
        (.setValueFromAction v .accept)).state.lastCommittedValue = v := by
  simp [actionReducer, applyValueReducer, PickerValueUpdateAction.value,
    shouldCommitValue, hvr]

/-- C1 witness: in the settled concrete state the accept action's value is
equal (per `areValuesEqual`) to `lastCommittedValue`, and `onAccept` still
fires exactly once with it. -/
theorem accept_always_fires_onAccept_witness :
    (actionReducer singleValueManager settledState false true
        (.setValueFromAction (some ⟨3, "UTC"⟩) .accept)).onAcceptCalls =
      [some ⟨3, "UTC"⟩] ∧
    (actionReducer singleValueManager settledState false true
        (.setValueFromAction (some ⟨3, "UTC"⟩) .accept)).state.lastCommittedValue =
      some ⟨3, "UTC"⟩ :=
  accept_always_fires_onAccept singleValueManager settledState false true
    (some ⟨3, "UTC"⟩) rfl

/-- C2: for every controlled picker, when the external value differs (per
`areValuesEqual`) from `lastControlledValue`, the render-phase
synchronization sets `draft`, `lastPublishedValue` and `lastCommittedValue`
to the new external value and updates `lastControlledValue` to it, fires
neither `onChange` nor `onAccept`, and leaves `hasBeenModifiedSinceMount`
unchanged. -/
theorem controlled_sync_resets_without_callbacks {TValue : Type}
    (vm : PickerValueManager TValue) (dateState : UsePickerValueState TValue)
    (v : TValue) (hdiff : controlledValueDiffers vm dateState v = true) :
    (syncControlledValue vm dateState (some v)).state.draft = v ∧
    (syncControlledValue vm dateState (some v)).state.lastPublishedValue = v ∧
    (syncControlledValue vm dateState (some v)).state.lastCommittedValue = v ∧
    (syncControlledValue vm dateState (some v)).state.lastControlledValue = some v ∧
    (syncControlledValue vm dateState (some v)).onChangeCalls = [] ∧
    (syncControlledValue vm dateState (some v)).onAcceptCalls = [] ∧
    (syncControlledValue vm dateState (some v)).state.hasBeenModifiedSinceMount =
      dateState.hasBeenModifiedSinceMount := by
  simp [syncControlledValue, hdiff]

/-- C2 witness: the settled concrete state receives a changed controlled
value and synchronizes to it with no callback. -/
theorem controlled_sync_resets_without_callbacks_witness :
    (syncControlledValue singleValueManager settledState
        (some (some ⟨9, "UTC"⟩))).state.draft = some ⟨9, "UTC"⟩ ∧
    (syncControlledValue singleValueManager settledState
        (some (some ⟨9, "UTC"⟩))).state.lastPublishedValue = some ⟨9, "UTC"⟩ ∧
    (syncControlledValue singleValueManager settledState
        (some (some ⟨9, "UTC"⟩))).state.lastCommittedValue = some ⟨9, "UTC"⟩ ∧
    (syncControlledValue singleValueManager settledState
        (some (some ⟨9, "UTC"⟩))).state.lastControlledValue =
      some (some ⟨9, "UTC"⟩) ∧
    (syncControlledValue singleValueManager settledState
        (some (some ⟨9, "UTC"⟩))).onChangeCalls = [] ∧
    (syncControlledValue singleValueManager settledState
        (some (some ⟨9, "UTC"⟩))).onAcceptCalls = [] ∧
    (syncControlledValue singleValueManager settledState
        (some (some ⟨9, "UTC"⟩))).state.hasBeenModifiedSinceMount =
      settledState.hasBeenModifiedSinceMount :=
  controlled_sync_resets_without_callbacks singleValueManager settledState
    (some ⟨9, "UTC"⟩) (by decide)

/-- C3: for every picker state, dispatching `setValueFromAction` with
`pickerAction = cancel` or `dismiss` sets `draft` to `lastCommittedValue`
(ignoring the action's candidate value), fires neither `onChange` nor
`onAccept`, and leaves `lastCommittedValue` and `lastPublishedValue`
unchanged. -/
theorem cancel_dismiss_reverts_draft {TValue : Type}
    (vm : PickerValueManager TValue) (dateState : UsePickerValueState TValue)
    (isControlled closeOnSelect : Bool) (v : TValue) (pa : PickerAction)
    (hpa : pa = .cancel ∨ pa = .dismiss) :
    (actionReducer vm dateState isControlled closeOnSelect
        (.setValueFromAction v pa)).state.draft = dateState.lastCommittedValue ∧
    (actionReducer vm dateState isControlled closeOnSelect
        (.setValueFromAction v pa)).onChangeCalls = [] ∧
    (actionReducer vm dateState isControlled closeOnSelect
        (.setValueFromAction v pa)).onAcceptCalls = [] ∧
    (actionReducer vm dateState isControlled closeOnSelect
        (.setValueFromAction v pa)).state.lastCommittedValue =
      dateState.lastCommittedValue ∧
    (actionReducer vm dateState isControlled closeOnSelect
        (.setValueFromAction v pa)).state.lastPublishedValue =
      dateState.lastPublishedValue := by
  rcases hpa with h | h <;> subst h <;>
    simp [actionReducer, shouldPublishValue, shouldCommitValue,
      isCancelOrDismissAction]

/-- C3 witness: cancelling in the concrete state with a pending draft edit
reverts the draft to the committed value and fires nothing. -/
theorem cancel_dismiss_reverts_draft_witness :
    (actionReducer singleValueManager sampleState false true
        (.setValueFromAction (some ⟨3, "UTC"⟩) .cancel)).state.draft =
      sampleState.lastCommittedValue ∧
    (actionReducer singleValueManager sampleState false true
        (.setValueFromAction (some ⟨3, "UTC"⟩) .cancel)).onChangeCalls = [] ∧
    (actionReducer singleValueManager sampleState false true
        (.setValueFromAction (some ⟨3, "UTC"⟩) .cancel)).onAcceptCalls = [] ∧
    (actionReducer singleValueManager sampleState false true
        (.setValueFromAction (some ⟨3, "UTC"⟩) .cancel)).state.lastCommittedValue =
      sampleState.lastCommittedValue ∧
    (actionReducer singleValueManager sampleState false true
        (.setValueFromAction (some ⟨3, "UTC"⟩) .cancel)).state.lastPublishedValue =
      sampleState.lastPublishedValue :=
  cancel_dismiss_reverts_draft singleValueManager sampleState false true
    (some ⟨3, "UTC"⟩) .cancel (Or.inl rfl)

/-- C4: for every uncontrolled picker whose `hasBeenModifiedSinceMount` flag
is false, dispatching `setValueFromAction` with `pickerAction = accept`,
`today` or `clear` fires `onAccept` with the action's resulting value, while
dispatching `cancel` or `dismiss` in the same state fires no callback at all
(stated for a ValueManager without the optional `valueReducer` hook, so that
the resulting value is the action's own). -/
theorem uncontrolled_unmodified_action_callbacks {TValue : Type}
    (vm : PickerValueManager TValue) (dateState : UsePickerValueState TValue)
    (closeOnSelect : Bool) (v : TValue)
    (hvr : vm.valueReducer = none)
    (hmod : dateState.hasBeenModifiedSinceMount = false) :
    (actionReducer vm dateState false closeOnSelect
        (.setValueFromAction v .accept)).onAcceptCalls = [v] ∧
    (actionReducer vm dateState false closeOnSelect
        (.setValueFromAction v .today)).onAcceptCalls = [v] ∧
    (actionReducer vm dateState false closeOnSelect
        (.setValueFromAction v .clear)).onAcceptCalls = [v] ∧
    ((actionReducer vm dateState false closeOnSelect
        (.setValueFromAction v .cancel)).onAcceptCalls = [] ∧
     (actionReducer vm dateState false closeOnSelect
        (.setValueFromAction v .cancel)).onChangeCalls = []) ∧
    ((actionReducer vm dateState false closeOnSelect
        (.setValueFromAction v .dismiss)).onAcceptCalls = [] ∧
     (actionReducer vm dateState false closeOnSelect
        (.setValueFromAction v .dismiss)).onChangeCalls = []) := by
  simp [actionReducer, applyValueReducer, PickerValueUpdateAction.value,
    shouldPublishValue, shouldCommitValue, hvr]

/-- C4 witness: the never-modified, uncontrolled concrete state fires
`onAccept` on accept/today/clear and nothing on cancel/dismiss. -/
theorem uncontrolled_unmodified_action_callbacks_witness :
    (actionReducer singleValueManager sampleState false true
        (.setValueFromAction (some ⟨11, "UTC"⟩) .accept)).onAcceptCalls =
      [some ⟨11, "UTC"⟩] ∧
    (actionReducer singleValueManager sampleState false true
        (.setValueFromAction (some ⟨11, "UTC"⟩) .today)).onAcceptCalls =
      [some ⟨11, "UTC"⟩] ∧
    (actionReducer singleValueManager sampleState false true
        (.setValueFromAction (some ⟨11, "UTC"⟩) .clear)).onAcceptCalls =
      [some ⟨11, "UTC"⟩] ∧
    ((actionReducer singleValueManager sampleState false true
        (.setValueFromAction (some ⟨11, "UTC"⟩) .cancel)).onAcceptCalls = [] ∧
     (actionReducer singleValueManager sampleState false true
        (.setValueFromAction (some ⟨11, "UTC"⟩) .cancel)).onChangeCalls = []) ∧
    ((actionReducer singleValueManager sampleState false true
        (.setValueFromAction (some ⟨11, "UTC"⟩) .dismiss)).onAcceptCalls = [] ∧
     (actionReducer singleValueManager sampleState false true
        (.setValueFromAction (some ⟨11, "UTC"⟩) .dismiss)).onChangeCalls = []) :=
  uncontrolled_unmodified_action_callbacks singleValueManager sampleState true
    (some ⟨11, "UTC"⟩) rfl rfl

/-- C5: for every picker state, `dismissViews` (the private `requestClose`
contract) performs an implicit accept-equivalent commit — firing `onAccept`
with the draft and updating `lastCommittedValue` to the draft — exactly when
the draft differs (per `areValuesEqual`) from `lastCommittedValue`; it never
fires `onChange`, and it always requests the transition to closed. -/
theorem dismissViews_commits_pending_edits {TValue : Type}
    (vm : PickerValueManager TValue) (dateState : UsePickerValueState TValue) :
    (dismissViews vm dateState).shouldClose = true ∧
    (dismissViews vm dateState).onChangeCalls = [] ∧
    (if vm.areValuesEqual dateState.draft dateState.lastCommittedValue then
       (dismissViews vm dateState).onAcceptCalls = [] ∧
       (dismissViews vm dateState).state = dateState
     else
       (dismissViews vm dateState).onAcceptCalls = [dateState.draft] ∧
       (dismissViews vm dateState).state.lastCommittedValue = dateState.draft ∧
       (dismissViews vm dateState).state.draft = dateState.draft) := by
  cases h : vm.areValuesEqual dateState.draft dateState.lastCommittedValue <;>
    simp [dismissViews, h]

/-- C6: for every picker state, a `setValueFromView` action with
`selectionState = finish` commits (fires `onAccept` with the candidate and
updates `lastCommittedValue` to it); with `partial` or `shallow` it never
commits; and it publishes (fires `onChange`) exactly when the candidate
value differs from the draft per `areValuesEqual` (stated for a ValueManager
without the optional `valueReducer` hook). -/
theorem setValueFromView_commit_publish_policy {TValue : Type}
    (vm : PickerValueManager TValue) (dateState : UsePickerValueState TValue)
    (isControlled closeOnSelect : Bool) (v : TValue)
    (s : PickerSelectionState) (hvr : vm.valueReducer = none) :
    (s = .finish →
      (actionReducer vm dateState isControlled closeOnSelect
          (.setValueFromView v s)).onAcceptCalls = [v] ∧
      (actionReducer vm dateState isControlled closeOnSelect
          (.setValueFromView v s)).state.lastCommittedValue = v) ∧
    (s ≠ .finish →
      (actionReducer vm dateState isControlled closeOnSelect
          (.setValueFromView v s)).onAcceptCalls = [] ∧
      (actionReducer vm dateState isControlled closeOnSelect
          (.setValueFromView v s)).state.lastCommittedValue =
        dateState.lastCommittedValue) ∧
    ((actionReducer vm dateState isControlled closeOnSelect
        (.setValueFromView v s)).onChangeCalls =
      if vm.areValuesEqual dateState.draft v then [] else [v]) := by
  cases s <;> cases h : vm.areValuesEqual dateState.draft v <;>
    simp [actionReducer, applyValueReducer, PickerValueUpdateAction.value,
      shouldPublishValue, shouldCommitValue, hvr, h]

/-- C6 witness: a finishing view selection in the concrete state commits the
new value, and the same unchanged-candidate selection publishes nothing. -/
theorem setValueFromView_commit_publish_policy_witness :
    ((.finish : PickerSelectionState) = .finish →
      (actionReducer singleValueManager sampleState false true
          (.setValueFromView (some ⟨7, "UTC"⟩) .finish)).onAcceptCalls =
        [some ⟨7, "UTC"⟩] ∧
      (actionReducer singleValueManager sampleState false true
          (.setValueFromView (some ⟨7, "UTC"⟩) .finish)).state.lastCommittedValue =
        some ⟨7, "UTC"⟩) ∧
    ((.finish : PickerSelectionState) ≠ .finish →
      (actionReducer singleValueManager sampleState false true
          (.setValueFromView (some ⟨7, "UTC"⟩) .finish)).onAcceptCalls = [] ∧
      (actionReducer singleValueManager sampleState false true
          (.setValueFromView (some ⟨7, "UTC"⟩) .finish)).state.lastCommittedValue =
        sampleState.lastCommittedValue) ∧
    ((actionReducer singleValueManager sampleState false true
        (.setValueFromView (some ⟨7, "UTC"⟩) .finish)).onChangeCalls =
      if singleValueManager.areValuesEqual sampleState.draft (some ⟨7, "UTC"⟩)
      then [] else [some ⟨7, "UTC"⟩]) :=
  setValueFromView_commit_publish_policy singleValueManager sampleState false
    true (some ⟨7, "UTC"⟩) .finish rfl

/-- C7: for every action, the reducer's `shouldClose` directive is true
exactly when the action is a `setValueFromAction` (any of `accept`, `today`,
`cancel`, `dismiss`, `clear`), or when `closeOnSelect` is true and the
action is a `setValueFromView` with `selectionState = finish`; it is false
for every other action. -/
theorem shouldClose_characterisation {TValue : Type}
    (vm : PickerValueManager TValue) (dateState : UsePickerValueState TValue)
    (isControlled closeOnSelect : Bool)
    (action : PickerValueUpdateAction TValue) :
    (actionReducer vm dateState isControlled closeOnSelect action).shouldClose =
        true ↔
      (∃ v pa, action = .setValueFromAction v pa) ∨
      (closeOnSelect = true ∧ ∃ v, action = .setValueFromView v .finish) := by
  cases action with
  | setValueFromView v s =>
    cases s <;> cases closeOnSelect <;>
      simp [actionReducer, shouldClosePicker]
  | setValueFromField v b => simp [actionReducer, shouldClosePicker]
  | setValueFromAction v pa => simp [actionReducer, shouldClosePicker]
  | setValueFromShortcut v imp => simp [actionReducer, shouldClosePicker]

/-- C8: for a range-shaped ValueManager, `getTimezone` raises an error
exactly when the two elements of the range value carry different timezones;
for all other inputs it returns the common timezone (or `null` when the
range is empty) without raising, and the single-picker `getTimezone` is
total and never raises. -/
theorem getTimezone_range_fault_characterisation (value : RangeValue) :
    (exceptIsError (rangeGetTimezone value) = true ↔
      ∃ a b, value = (some a, some b) ∧ a.timezone ≠ b.timezone) ∧
    (∀ a b : ZonedDate, a.timezone = b.timezone →
      rangeGetTimezone (some a, some b) = .ok (some a.timezone)) ∧
    rangeGetTimezone (none, none) = .ok none ∧
    (∀ d : SingleValue, singleGetTimezone d = d.map ZonedDate.timezone) := by
  obtain ⟨v1, v2⟩ := value
  refine ⟨?_, ?_, rfl, ?_⟩
  · cases v1 <;> cases v2 <;>
      simp only [rangeGetTimezone, exceptIsError] <;>
      try simp
    rename_i a b
    by_cases h : a.timezone = b.timezone
    · simp [h, exceptIsError]
    · simp only [h, exceptIsError, if_false, ite_false]
      simp
      exact ⟨a, b, ⟨rfl, rfl⟩, h⟩
  · intro a b h
    simp [rangeGetTimezone, h]
  · intro d
    cases d <;> simp [singleGetTimezone]

/-- C9: from every picker state, dispatching `clearValue` immediately
followed by `setValueToToday` yields a draft equal — structurally and per
`areValuesEqual` — to `ValueManager.getTodayValue`, and the intermediate
state after `clearValue` has draft `ValueManager.emptyValue` with the
`clear` action's own effects fired: `onAccept` with the empty value (the
clear action always commits) and `onChange` exactly when the empty value
differs from the previous draft (stated for a ValueManager without the
optional `valueReducer` hook and whose equality holds on the today value
itself). -/
theorem clear_then_today_roundtrip {TValue : Type}
    (vm : PickerValueManager TValue) (dateState : UsePickerValueState TValue)
    (isControlled closeOnSelect : Bool)
    (hvr : vm.valueReducer = none)
    (hrefl : vm.areValuesEqual vm.getTodayValue vm.getTodayValue = true) :
    (setValueToToday vm
        (clearValue vm dateState isControlled closeOnSelect).state
        isControlled closeOnSelect).state.draft = vm.getTodayValue ∧
    vm.areValuesEqual
      (setValueToToday vm
          (clearValue vm dateState isControlled closeOnSelect).state
          isControlled closeOnSelect).state.draft vm.getTodayValue = true ∧
    (clearValue vm dateState isControlled closeOnSelect).state.draft =
      vm.emptyValue ∧
    (clearValue vm dateState isControlled closeOnSelect).onAcceptCalls =
      [vm.emptyValue] ∧
    (clearValue vm dateState isControlled closeOnSelect).state.lastCommittedValue =
      vm.emptyValue ∧
    ((clearValue vm dateState isControlled closeOnSelect).onChangeCalls =
      if vm.areValuesEqual dateState.draft vm.emptyValue then []
      else [vm.emptyValue]) := by
  cases h : vm.areValuesEqual dateState.draft vm.emptyValue <;>
    simp [clearValue, setValueToToday, actionReducer, applyValueReducer,
      PickerValueUpdateAction.value, shouldPublishValue, shouldCommitValue,
      isCancelOrDismissAction, isDismissAction, hvr, h, hrefl]

/-- C9 witness: clearing then setting to today in the concrete state lands
the draft on the concrete today value, with the clear action's publish and
commit effects visible in the intermediate state. -/
theorem clear_then_today_roundtrip_witness :
    (setValueToToday singleValueManager
        (clearValue singleValueManager sampleState false true).state
        false true).state.draft = singleValueManager.getTodayValue ∧
    singleValueManager.areValuesEqual
      (setValueToToday singleValueManager
          (clearValue singleValueManager sampleState false true).state
          false true).state.draft singleValueManager.getTodayValue = true ∧
    (clearValue singleValueManager sampleState false true).state.draft =
      singleValueManager.emptyValue ∧
    (clearValue singleValueManager sampleState false true).onAcceptCalls =
      [singleValueManager.emptyValue] ∧
    (clearValue singleValueManager sampleState false true).state.lastCommittedValue =
      singleValueManager.emptyValue ∧
    ((clearValue singleValueManager sampleState false true).onChangeCalls =
      if singleValueManager.areValuesEqual sampleState.draft
          singleValueManager.emptyValue then []
      else [singleValueManager.emptyValue]) :=
  clear_then_today_roundtrip singleValueManager sampleState false true rfl
    (by decide)

/-- C10: for every input — including a value whose components are all null
and an absent `referenceDate` — `getInitialReferenceValue` returns a value
of the non-nullable shape: a non-null date for single pickers and a pair of
two non-null dates for range pickers, so the initial reference value is
never empty. -/
theorem getInitialReferenceValue_never_empty (referenceDate : Option ZonedDate)
    (value : SingleValue) (rangeValue : RangeValue) (todayDate : ZonedDate) :
    (singleGetInitialReferenceValue referenceDate value todayDate).isSome =
        true ∧
    (rangeGetInitialReferenceValue referenceDate rangeValue todayDate).1.isSome =
        true ∧
    (rangeGetInitialReferenceValue referenceDate rangeValue todayDate).2.isSome =
        true := by
  obtain ⟨r1, r2⟩ := rangeValue
  refine ⟨?_, ?_, ?_⟩ <;>
    simp [singleGetInitialReferenceValue, rangeGetInitialReferenceValue,
      Option.or]
  · cases value <;> cases referenceDate <;> simp
  · cases r1 <;> cases referenceDate <;> simp
  · cases r2 <;> cases referenceDate <;> simp
